import Mathlib

/-!
# Verification of the Maternal Health Risk Predictor backend

A shallow embedding, in Lean 4, of the risk-scoring core of the
`Netweb_Hackathon` backend (`backend/model.py`, `backend/translation_service.py`)
together with theorems settling the specification claims.

Conventions of the embedding:
* Python floats are modelled as exact rationals (`ℚ`); Python's `round(x, k)`
  (round-half-to-even) is modelled exactly on `ℚ` by `pyRound`.
* Python f-string formatting of numbers is abstracted by a formatting
  parameter `fmt : ℚ → String`; no statement below depends on its values.
* The trained classifier is external learned state; its per-request output
  (a probability vector and a predicted class) is passed to `predict` as
  input, exactly at the boundary where `model.predict_proba` /
  `model.predict` return in the source.
* Python's `list.sort` (a stable sort) is modelled by a stable insertion
  sort on the same key.
-/

namespace MaternalHealth

/-- Python `round` to an integer: round half to even (banker's rounding),
exact on rationals. -/
def pyRoundInt (y : ℚ) : ℤ :=
  if y - ⌊y⌋ < 1/2 then ⌊y⌋
  else if 1/2 < y - ⌊y⌋ then ⌊y⌋ + 1
  else if Even ⌊y⌋ then ⌊y⌋ else ⌊y⌋ + 1

/-- Python `round(x, k)` on rationals. -/
def pyRound (x : ℚ) (k : ℕ) : ℚ :=
  (pyRoundInt (x * 10 ^ k) : ℚ) / 10 ^ k

/-- The raw per-request feature record (`backend/schemas.py`, `PatientData`;
the dict consumed by `MaternalHealthRiskModel.predict`). Numeric fields are
rationals, `previous_complications` is the boolean of the schema. -/
structure PatientData where
  age : ℚ
  num_pregnancies : ℚ
  trimester : ℚ
  hemoglobin : ℚ
  systolic_bp : ℚ
  diastolic_bp : ℚ
  blood_sugar : ℚ
  bmi : ℚ
  previous_complications : Bool
deriving DecidableEq

/-- One contributing factor as built by `_analyze_factors`
(`backend/model.py`): name, displayed value, impact string and description. -/
structure Factor where
  factor : String
  value : String
  impact : String
  description : String
deriving DecidableEq

/-- The sort key of `_analyze_factors`' final sort:
`impact_order = {'High': 0, 'Medium': 1, 'Low': 2}` (`backend/model.py:497`). -/
def impact_order (s : String) : ℕ :=
  if s = "High" then 0 else if s = "Medium" then 1 else 2

/-- Insert into a list sorted by `impact_order`, before the first element of
equal or larger key (the insertion step of a stable sort). -/
def insertFactor (a : Factor) : List Factor → List Factor
  | [] => [a]
  | b :: bs =>
    if impact_order a.impact ≤ impact_order b.impact then a :: b :: bs
    else b :: insertFactor a bs

/-- Stable sort by `impact_order`, modelling
`factors.sort(key=lambda x: impact_order[x['impact']])` (`backend/model.py:498`). -/
def sortFactors : List Factor → List Factor
  | [] => []
  | a :: as => insertFactor a (sortFactors as)

/-- Age section of `_analyze_factors` (`backend/model.py:378-395`). -/
def ageFactors (fmt : ℚ → String) (d : PatientData) : List Factor :=
  if d.age < 18 then
    [⟨"Teenage Pregnancy", fmt d.age ++ " years", "High",
      "Age below 18 increases risk of complications"⟩]
  else if d.age > 35 then
    [⟨"Advanced Maternal Age", fmt d.age ++ " years", "High",
      "Age above 35 associated with increased risks"⟩]
  else []

/-- Hemoglobin section of `_analyze_factors` (`backend/model.py:397-414`). -/
def hemoglobinFactors (fmt : ℚ → String) (d : PatientData) : List Factor :=
  if d.hemoglobin < 10 then
    [⟨"Severe Anemia", fmt d.hemoglobin ++ " g/dL", "High",
      "Hemoglobin below 10 g/dL indicates severe anemia"⟩]
  else if d.hemoglobin < 11 then
    [⟨"Moderate Anemia", fmt d.hemoglobin ++ " g/dL", "Medium",
      "Hemoglobin below 11 g/dL indicates anemia"⟩]
  else []

/-- Blood-pressure section of `_analyze_factors` (`backend/model.py:416-433`). -/
def bloodPressureFactors (fmt : ℚ → String) (d : PatientData) : List Factor :=
  if d.systolic_bp > 140 ∨ d.diastolic_bp > 90 then
    [⟨"Hypertension", fmt d.systolic_bp ++ "/" ++ fmt d.diastolic_bp ++ " mmHg", "High",
      "High blood pressure increases pre-eclampsia risk"⟩]
  else if d.systolic_bp > 130 ∨ d.diastolic_bp > 85 then
    [⟨"Elevated Blood Pressure", fmt d.systolic_bp ++ "/" ++ fmt d.diastolic_bp ++ " mmHg",
      "Medium", "Blood pressure slightly elevated, needs monitoring"⟩]
  else []

/-- Blood-sugar section of `_analyze_factors` (`backend/model.py:435-452`). -/
def bloodSugarFactors (fmt : ℚ → String) (d : PatientData) : List Factor :=
  if d.blood_sugar > 140 then
    [⟨"Gestational Diabetes", fmt d.blood_sugar ++ " mg/dL", "High",
      "Blood sugar above 140 indicates gestational diabetes"⟩]
  else if d.blood_sugar > 125 then
    [⟨"Elevated Blood Sugar", fmt d.blood_sugar ++ " mg/dL", "Medium",
      "Blood sugar slightly high, further testing recommended"⟩]
  else []

/-- BMI section of `_analyze_factors` (`backend/model.py:454-471`). -/
def bmiFactors (fmt : ℚ → String) (d : PatientData) : List Factor :=
  if d.bmi < 37/2 then
    [⟨"Underweight", "BMI " ++ fmt d.bmi, "Medium",
      "Low BMI may affect fetal growth"⟩]
  else if d.bmi > 30 then
    [⟨"Obesity", "BMI " ++ fmt d.bmi, "Medium",
      "High BMI increases pregnancy complications risk"⟩]
  else []

/-- Previous-complications section of `_analyze_factors` (`backend/model.py:473-482`). -/
def historyFactors (d : PatientData) : List Factor :=
  if d.previous_complications then
    [⟨"Previous Complications", "Yes", "High",
      "History of complications increases current pregnancy risk"⟩]
  else []

/-- Multiparity section of `_analyze_factors` (`backend/model.py:484-493`). -/
def parityFactors (fmt : ℚ → String) (d : PatientData) : List Factor :=
  if d.num_pregnancies > 5 then
    [⟨"Grand Multiparity", fmt d.num_pregnancies ++ " pregnancies", "Medium",
      "Many previous pregnancies increase risk"⟩]
  else []

/-- The factor list built by `_analyze_factors` before its final sort
(`backend/model.py:376-493`): the sequential `factors.append(...)` calls,
section by section. -/
def factorsRaw (fmt : ℚ → String) (d : PatientData) : List Factor :=
  ageFactors fmt d ++ hemoglobinFactors fmt d ++ bloodPressureFactors fmt d ++
    bloodSugarFactors fmt d ++ bmiFactors fmt d ++ historyFactors d ++
    parityFactors fmt d

/-- Embeds `MaternalHealthRiskModel._analyze_factors` (`backend/model.py:358-500`):
build the factor list, then sort it stably by impact. -/
def analyze_factors (fmt : ℚ → String) (d : PatientData) : List Factor :=
  sortFactors (factorsRaw fmt d)

/-- Embeds `MaternalHealthRiskModel._generate_recommendations`
(`backend/model.py:502-572`): sequential conditional appends, ending with the
two universal advisories. The strings are byte-for-byte those of the source
file. -/
def generate_recommendations (d : PatientData) (risk_category : String) :
    List String :=
  (if risk_category = "High" then
    ["\uF8FF\u00FC\u00F6\u00AE Immediate medical consultation required",
     "\uF8FF\u00FC\u00EC\u00E3 Comprehensive prenatal testing recommended",
     "\uF8FF\u00FC\u00E8\u2022 Consider referral to specialist facility"]
  else []) ++
  (if d.hemoglobin < 11 then
    ["\uF8FF\u00FC\u00ED\u00E4 Iron supplementation and nutrition counseling",
     "\uF8FF\u00FC\u2022\u00F3 Diet rich in iron: green vegetables, meat, fortified cereals"]
  else []) ++
  (if d.systolic_bp > 130 ∨ d.diastolic_bp > 85 then
    ["\uF8FF\u00FC\u00A9\u222B Regular blood pressure monitoring (weekly)",
     "\uF8FF\u00FC\u00DF\u00C7 Reduce salt intake, monitor for pre-eclampsia symptoms"]
  else []) ++
  (if d.blood_sugar > 125 then
    ["\uF8FF\u00FC\u00E7\u00E9 Diabetes screening and blood sugar monitoring",
     "\uF8FF\u00FC\u00F6\u2202\u201A\u00C4\u00E7\u201A\u00F4\u00C4\u00D4\u220F\u00E8 Dietary modifications and light exercise"]
  else []) ++
  (if d.bmi < 37/2 then
    ["\uF8FF\u00FC\u00E7\u03A9\u00D4\u220F\u00E8 Nutritional support to achieve healthy weight gain"]
  else if d.bmi > 30 then
    ["\u201A\u00F6\u00F1\u00D4\u220F\u00E8 Weight management and nutritionist consultation"]
  else []) ++
  (if d.age < 18 then
    ["\uF8FF\u00FC\u00EB\u2022 Additional psychosocial support and education"]
  else if d.age > 35 then
    ["\uF8FF\u00FC\u00EE\u00A8 Advanced screening tests (genetic counseling if needed)"]
  else []) ++
  (if d.previous_complications then
    ["\uF8FF\u00FC\u00EC\u00F9 Review previous medical records and complications",
     "\uF8FF\u00FC\u00EB\u00AE\u201A\u00C4\u00E7\u201A\u00F6\u00EF\u00D4\u220F\u00E8 Enhanced monitoring throughout pregnancy"]
  else []) ++
  ["\u201A\u00FA\u00D6 Regular antenatal check-ups as scheduled",
   "\uF8FF\u00FC\u00EC\u00FB Emergency contact: Seek help if severe headache, vision changes, or bleeding"]

/-- The record returned by `MaternalHealthRiskModel.predict`
(`backend/model.py:350-356`). -/
structure PredictionResult where
  risk_score : ℚ
  risk_category : String
  probability : ℚ
  contributing_factors : List Factor
  recommendations : List String
deriving DecidableEq

/-- Embeds `MaternalHealthRiskModel.predict` from the classifier boundary on
(`backend/model.py:323-356`): `probabilities` is `model.predict_proba(...)[0]`
and `predicted_class` is `model.predict(...)[0]`, both functions of the
trained classifier state and the scaled features; everything after that
point is embedded verbatim. -/
def predict (fmt : ℚ → String) (probabilities : Fin 3 → ℚ)
    (predicted_class : Fin 3) (d : PatientData) : PredictionResult :=
  let risk_score : ℚ :=
    probabilities 0 * 0 + probabilities 1 * 50 + probabilities 2 * 100
  let risk_category : String :=
    if predicted_class = 0 then "Low"
    else if predicted_class = 1 then "Medium"
    else "High"
  { risk_score := pyRound risk_score 1
    risk_category := risk_category
    probability := pyRound (probabilities predicted_class) 3
    contributing_factors := analyze_factors fmt d
    recommendations := generate_recommendations d risk_category }

/-- The rule-based risk score of the synthetic data generator
(`generate_synthetic_data`, `backend/model.py:158-202`): the sequential
`risk_score += ...` additions, in source order. -/
def rubric_risk_score (d : PatientData) : ℕ :=
  (if d.age < 18 ∨ d.age > 35 then 25 else 0) +
  (if d.hemoglobin < 10 then 30 else if d.hemoglobin < 11 then 15 else 0) +
  (if d.systolic_bp > 140 ∨ d.diastolic_bp > 90 then 35
   else if d.systolic_bp > 130 ∨ d.diastolic_bp > 85 then 20 else 0) +
  (if d.blood_sugar > 140 then 25 else if d.blood_sugar > 125 then 10 else 0) +
  (if d.bmi < 37/2 ∨ d.bmi > 30 then 15 else 0) +
  (if d.previous_complications then 20 else 0) +
  (if d.num_pregnancies > 5 then 15 else 0)

/-- The training label of the synthetic data generator
(`backend/model.py:204-212`): 0 if the rubric sum is below 40, 1 below 70,
else 2. -/
def risk_label (d : PatientData) : ℕ :=
  if rubric_risk_score d < 40 then 0
  else if rubric_risk_score d < 70 then 1
  else 2

/-! ## Feature Normalizer

Modelled from the spec: the Feature Normalizer is sklearn `StandardScaler`
(`backend/model.py:53`, fitted at `backend/model.py:254`), whose
implementation is not part of this repository. Spec §4.2: `fit` computes the
per-feature mean and standard deviation over the cohort, and zero-variance
features are guarded against division by zero by substituting `scale = 1`;
`transform` is elementwise `(x - mean) / scale`. The square root producing
the standard deviation from the variance is abstracted as a parameter
`sqrt`; no theorem depends on its values, only on positivity. -/

/-- Per-feature and per-sample mean over the cohort. -/
def featureMean (cohort : List (Fin n → ℚ)) (j : Fin n) : ℚ :=
  (cohort.map (fun x => x j)).sum / cohort.length

/-- Per-feature population variance over the cohort. -/
def featureVariance (cohort : List (Fin n → ℚ)) (j : Fin n) : ℚ :=
  (cohort.map (fun x => (x j - featureMean cohort j) ^ 2)).sum / cohort.length

/-- Per-feature (mean, scale) parameters, immutable after fit. -/
structure NormalizationParameters (n : ℕ) where
  mean : Fin n → ℚ
  scale : Fin n → ℚ

/-- Modelled from the spec: `StandardScaler.fit` — per-feature mean and
standard deviation, with `scale = 1` substituted for zero-variance
features. -/
def scalerFit (sqrt : ℚ → ℚ) (cohort : List (Fin n → ℚ)) :
    NormalizationParameters n :=
  { mean := featureMean cohort
    scale := fun j =>
      if featureVariance cohort j = 0 then 1
      else sqrt (featureVariance cohort j) }

/-- Modelled from the spec: `StandardScaler.transform` — elementwise
`(x - mean) / scale`. -/
def scalerTransform (params : NormalizationParameters n) (x : Fin n → ℚ) :
    Fin n → ℚ :=
  fun j => (x j - params.mean j) / params.scale j

/-! ## Translation service (`backend/translation_service.py`)

The external generative-text call (`genai.GenerativeModel.generate_content`
plus the `response.text` access) is abstracted as `api : String → Option
String`; `none` models a raised exception. `available` is
`self.model is not None` (an API key was configured); `cache` is the
in-memory cache keyed by (text, source, target). -/

/-- Embeds `TranslationService.SUPPORTED_LANGUAGES` (`backend/translation_service.py:41-47`). -/
def SUPPORTED_LANGUAGES : List (String × String) :=
  [("en", "English"),
   ("hi", "Hindi (हिंदी)"),
   ("bn", "Bengali (বাংলা)"),
   ("mr", "Marathi (मराठी)"),
   ("ta", "Tamil (தமிழ்)")]

/-- The translation cache, keyed by (text, source language, target language)
(`backend/translation_service.py:60`). -/
abbrev Cache := List ((String × String × String) × String)

/-- The translation prompt of `translate_text`
(`backend/translation_service.py:131-143`). -/
def mkPrompt (srcName tgtName text : String) : String :=
  "Translate the following text from " ++ srcName ++ " to " ++ tgtName ++
  ".\n\nImportant instructions:\n" ++
  "1. Provide ONLY the translated text without any explanations or notes\n" ++
  "2. Maintain the same tone and formality\n" ++
  "3. For medical terms, use commonly understood terms in the target language\n" ++
  "4. Preserve any numbers, measurements, and units exactly as they are\n" ++
  "5. Keep any emoji symbols unchanged\n\nText to translate:\n" ++ text ++
  "\n\nTranslation:"

/-- Embeds `TranslationService.translate_text` (`backend/translation_service.py:89-157`).
`available` is `self.model is not None` (an API key was configured); `api`
abstracts `generate_content` plus the `response.text` access, with `none`
modelling a raised exception; `cache` is `self.cache` before the call.
Returns the produced text together with the cache after the call. A `none`
from the source-language name lookup models the `KeyError` raised while
building the prompt inside the `try`, caught by the `except` which returns
the original text. -/
def translate_text (available : Bool) (api : String → Option String)
    (cache : Cache) (text target_language source_language : String) :
    String × Cache :=
  if source_language = target_language then (text, cache)
  else if available = false then (text, cache)
  else if (SUPPORTED_LANGUAGES.lookup target_language).isNone then (text, cache)
  else
    match cache.lookup (text, source_language, target_language) with
    | some cached => (cached, cache)
    | none =>
      match SUPPORTED_LANGUAGES.lookup source_language with
      | none => (text, cache)
      | some srcName =>
        match api (mkPrompt srcName
            ((SUPPORTED_LANGUAGES.lookup target_language).getD "") text) with
        | some response =>
          (response.trim, cache ++ [((text, source_language, target_language), response.trim)])
        | none => (text, cache)

/-- The loop over `contributing_factors` in `translate_risk_prediction`
(`backend/translation_service.py:244-254`): translate `factor`, `impact` and
`description`, keep `value`, threading the growing cache. -/
def translateFactors (available : Bool) (api : String → Option String)
    (target_language : String) : Cache → List Factor → List Factor × Cache
  | cache, [] => ([], cache)
  | cache, f :: fs =>
    let r1 := translate_text available api cache f.factor target_language "en"
    let r2 := translate_text available api r1.2 f.impact target_language "en"
    let r3 := translate_text available api r2.2 f.description target_language "en"
    let rest := translateFactors available api target_language r3.2 fs
    (⟨r1.1, f.value, r2.1, r3.1⟩ :: rest.1, rest.2)

/-- The loop over `recommendations` in `translate_risk_prediction`
(`backend/translation_service.py:257-261`). -/
def translateRecs (available : Bool) (api : String → Option String)
    (target_language : String) : Cache → List String → List String × Cache
  | cache, [] => ([], cache)
  | cache, r :: rs =>
    let r1 := translate_text available api cache r target_language "en"
    let rest := translateRecs available api target_language r1.2 rs
    (r1.1 :: rest.1, rest.2)

/-- Embeds `TranslationService.translate_risk_prediction`
(`backend/translation_service.py:211-267`): early pass-through when the
service is unavailable or the target is English; otherwise translate the
category, the factors and the recommendations in source order, keeping
`risk_score`, `probability` and the factor `value` fields. The second
component is `self.cache` after the call. The `try` body cannot raise in
the embedding (each inner `translate_text` catches its own failures and the
prediction record is well-typed), so the outer `except` pass-through branch
is unreachable here. -/
def translate_risk_prediction (available : Bool) (api : String → Option String)
    (cache : Cache) (prediction : PredictionResult) (target_language : String) :
    PredictionResult × Cache :=
  if available = false ∨ target_language = "en" then (prediction, cache)
  else
    let r0 := translate_text available api cache prediction.risk_category
      target_language "en"
    let rf := translateFactors available api target_language r0.2
      prediction.contributing_factors
    let rr := translateRecs available api target_language rf.2
      prediction.recommendations
    ({ prediction with
        risk_category := r0.1
        contributing_factors := rf.1
        recommendations := rr.1 }, rr.2)

/-! ## Spec-side definitions

Definitions in this section follow the words of the specification (not the
source); refinement theorems below compare them with the embedded code. -/

/-- Following the spec: `deriveCategory(argMaxClass)` via the direct index
mapping 0 → "Low", 1 → "Medium", 2 → "High". -/
def deriveCategory_spec (c : Fin 3) : String :=
  ["Low", "Medium", "High"].get c

/-- The seven clinical dimensions of the rubric and of the factor analyzer. -/
inductive Dimension
  | age
  | hemoglobin
  | bloodPressure
  | glucose
  | bmi
  | history
  | parity
deriving DecidableEq

/-- The clinical dimension a contributing-factor name belongs to. -/
def factorDimension : String → Dimension
  | "Teenage Pregnancy" => .age
  | "Advanced Maternal Age" => .age
  | "Severe Anemia" => .hemoglobin
  | "Moderate Anemia" => .hemoglobin
  | "Hypertension" => .bloodPressure
  | "Elevated Blood Pressure" => .bloodPressure
  | "Gestational Diabetes" => .glucose
  | "Elevated Blood Sugar" => .glucose
  | "Underweight" => .bmi
  | "Obesity" => .bmi
  | "Previous Complications" => .history
  | "Grand Multiparity" => .parity
  | _ => .age

/-- Projection of a contributing factor to (clinical dimension, impact). -/
def factorDim (f : Factor) : Dimension × String :=
  (factorDimension f.factor, f.impact)

/-- Following the spec: the exact per-dimension impact mapping of the factor
analyzer — age<18 or age>35 → High; hemoglobin<10 → High, else <11 → Medium;
systolic>140 or diastolic>90 → High, else systolic>130 or diastolic>85 →
Medium; glucose>140 → High, else >125 → Medium; BMI<18.5 or >30 → Medium;
previous complications → High; gravida>5 → Medium; nothing in normal
range. -/
def spec_factor_impacts (d : PatientData) : List (Dimension × String) :=
  (if d.age < 18 ∨ d.age > 35 then [(Dimension.age, "High")] else []) ++
  (if d.hemoglobin < 10 then [(Dimension.hemoglobin, "High")]
   else if d.hemoglobin < 11 then [(Dimension.hemoglobin, "Medium")] else []) ++
  (if d.systolic_bp > 140 ∨ d.diastolic_bp > 90 then [(Dimension.bloodPressure, "High")]
   else if d.systolic_bp > 130 ∨ d.diastolic_bp > 85 then
     [(Dimension.bloodPressure, "Medium")] else []) ++
  (if d.blood_sugar > 140 then [(Dimension.glucose, "High")]
   else if d.blood_sugar > 125 then [(Dimension.glucose, "Medium")] else []) ++
  (if d.bmi < 37/2 ∨ d.bmi > 30 then [(Dimension.bmi, "Medium")] else []) ++
  (if d.previous_complications then [(Dimension.history, "High")] else []) ++
  (if d.num_pregnancies > 5 then [(Dimension.parity, "Medium")] else [])

/-- Following the spec: the rubric sum of the synthetic label — +25 if age<18
or age>35; +30 if hemoglobin<10 else +15 if hemoglobin<11; +35 if
systolic>140 or diastolic>90 else +20 if systolic>130 or diastolic>85; +25
if glucose>140 else +10 if glucose>125; +15 if BMI<18.5 or BMI>30; +20 if
previous complications; +15 if gravida>5. -/
def spec_rubric_sum (d : PatientData) : ℕ :=
  (if d.age < 18 ∨ d.age > 35 then 25 else 0) +
  (if d.hemoglobin < 10 then 30 else if d.hemoglobin < 11 then 15 else 0) +
  (if d.systolic_bp > 140 ∨ d.diastolic_bp > 90 then 35
   else if d.systolic_bp > 130 ∨ d.diastolic_bp > 85 then 20 else 0) +
  (if d.blood_sugar > 140 then 25 else if d.blood_sugar > 125 then 10 else 0) +
  (if d.bmi < 37/2 ∨ d.bmi > 30 then 15 else 0) +
  (if d.previous_complications then 20 else 0) +
  (if d.num_pregnancies > 5 then 15 else 0)

/-- Following the spec: label 0 if the rubric sum is <40, 1 if <70, else 2. -/
def spec_label (d : PatientData) : ℕ :=
  if spec_rubric_sum d < 40 then 0 else if spec_rubric_sum d < 70 then 1 else 2

/-! ## Helper lemmas -/

theorem le_pyRoundInt {y : ℚ} {C : ℤ} (h : (C : ℚ) ≤ y) : C ≤ pyRoundInt y := by
  have hC : C ≤ ⌊y⌋ := Int.le_floor.mpr h
  unfold pyRoundInt
  split_ifs <;> omega

theorem pyRoundInt_le {y : ℚ} {C : ℤ} (h : y ≤ (C : ℚ)) : pyRoundInt y ≤ C := by
  have hfl : ⌊y⌋ ≤ C := by
    have h2 := Int.floor_le_floor h
    simpa using h2
  unfold pyRoundInt
  split_ifs with h1 h2 h3
  · exact hfl
  all_goals
    have hge : (1 : ℚ)/2 ≤ y - ⌊y⌋ := not_lt.mp h1
  all_goals
    have hfy : (⌊y⌋ : ℚ) < (C : ℚ) := by linarith [Int.floor_le y]
  all_goals
    have hlt : ⌊y⌋ < C := by exact_mod_cast hfy
  all_goals omega

/-- The ordering respected by the sorted factor list. -/
def FactorLE (a b : Factor) : Prop :=
  impact_order a.impact ≤ impact_order b.impact

theorem mem_insertFactor {c a : Factor} {l : List Factor} :
    c ∈ insertFactor a l ↔ c = a ∨ c ∈ l := by
  induction l with
  | nil => simp [insertFactor]
  | cons b bs ih =>
    unfold insertFactor
    split_ifs
    · simp [List.mem_cons]
    · simp only [List.mem_cons, ih]
      tauto

theorem insertFactor_perm (a : Factor) (l : List Factor) :
    List.Perm (insertFactor a l) (a :: l) := by
  induction l with
  | nil => exact List.Perm.refl _
  | cons b bs ih =>
    unfold insertFactor
    split_ifs
    · exact List.Perm.refl _
    · exact (List.Perm.cons b ih).trans (List.Perm.swap a b bs)

theorem sortFactors_perm (l : List Factor) : List.Perm (sortFactors l) l := by
  induction l with
  | nil => exact List.Perm.refl _
  | cons a as ih =>
    exact (insertFactor_perm a (sortFactors as)).trans (List.Perm.cons a ih)

theorem pairwise_insertFactor {a : Factor} {l : List Factor}
    (h : l.Pairwise FactorLE) : (insertFactor a l).Pairwise FactorLE := by
  induction l with
  | nil => simp [insertFactor]
  | cons b bs ih =>
    rw [List.pairwise_cons] at h
    unfold insertFactor
    split_ifs with hk
    · rw [List.pairwise_cons]
      refine ⟨fun c hc => ?_, List.pairwise_cons.mpr h⟩
      rcases List.mem_cons.mp hc with rfl | hc
      · exact hk
      · exact le_trans hk (h.1 c hc)
    · rw [List.pairwise_cons]
      refine ⟨fun c hc => ?_, ih h.2⟩
      rcases mem_insertFactor.mp hc with rfl | hc
      · exact le_of_not_le hk
      · exact h.1 c hc

theorem sortFactors_pairwise (l : List Factor) :
    (sortFactors l).Pairwise FactorLE := by
  induction l with
  | nil => simp [sortFactors]
  | cons a as ih => exact pairwise_insertFactor ih

theorem filter_insertFactor (v : String) (a : Factor) (l : List Factor) :
    (insertFactor a l).filter (fun f => f.impact == v) =
      (a :: l).filter (fun f => f.impact == v) := by
  induction l with
  | nil => rfl
  | cons b bs ih =>
    unfold insertFactor
    split_ifs with hk
    · rfl
    · simp only [List.filter_cons, ih]
      by_cases ha : (a.impact == v) = true <;> by_cases hb : (b.impact == v) = true
      · exfalso
        apply hk
        rw [beq_iff_eq] at ha hb
        rw [ha, hb]
      · simp [ha, hb]
      · simp [ha, hb]
      · simp [ha, hb]

theorem filter_sortFactors (v : String) (l : List Factor) :
    (sortFactors l).filter (fun f => f.impact == v) =
      l.filter (fun f => f.impact == v) := by
  induction l with
  | nil => rfl
  | cons a as ih =>
    rw [sortFactors, filter_insertFactor]
    simp only [List.filter_cons, ih]

theorem map_ageFactors (fmt : ℚ → String) (d : PatientData) :
    (ageFactors fmt d).map factorDim =
      (if d.age < 18 ∨ d.age > 35 then [(Dimension.age, "High")] else []) := by
  unfold ageFactors
  split_ifs <;> first | rfl | tauto

theorem map_hemoglobinFactors (fmt : ℚ → String) (d : PatientData) :
    (hemoglobinFactors fmt d).map factorDim =
      (if d.hemoglobin < 10 then [(Dimension.hemoglobin, "High")]
       else if d.hemoglobin < 11 then [(Dimension.hemoglobin, "Medium")] else []) := by
  unfold hemoglobinFactors
  split_ifs <;> rfl

theorem map_bloodPressureFactors (fmt : ℚ → String) (d : PatientData) :
    (bloodPressureFactors fmt d).map factorDim =
      (if d.systolic_bp > 140 ∨ d.diastolic_bp > 90 then [(Dimension.bloodPressure, "High")]
       else if d.systolic_bp > 130 ∨ d.diastolic_bp > 85 then
         [(Dimension.bloodPressure, "Medium")] else []) := by
  unfold bloodPressureFactors
  split_ifs <;> rfl

theorem map_bloodSugarFactors (fmt : ℚ → String) (d : PatientData) :
    (bloodSugarFactors fmt d).map factorDim =
      (if d.blood_sugar > 140 then [(Dimension.glucose, "High")]
       else if d.blood_sugar > 125 then [(Dimension.glucose, "Medium")] else []) := by
  unfold bloodSugarFactors
  split_ifs <;> rfl

theorem map_bmiFactors (fmt : ℚ → String) (d : PatientData) :
    (bmiFactors fmt d).map factorDim =
      (if d.bmi < 37/2 ∨ d.bmi > 30 then [(Dimension.bmi, "Medium")] else []) := by
  unfold bmiFactors
  split_ifs <;> first | rfl | tauto

theorem map_historyFactors (d : PatientData) :
    (historyFactors d).map factorDim =
      (if d.previous_complications then [(Dimension.history, "High")] else []) := by
  unfold historyFactors
  split_ifs <;> rfl

theorem map_parityFactors (fmt : ℚ → String) (d : PatientData) :
    (parityFactors fmt d).map factorDim =
      (if d.num_pregnancies > 5 then [(Dimension.parity, "Medium")] else []) := by
  unfold parityFactors
  split_ifs <;> rfl

theorem le_pyRound_div {k : ℕ} {x : ℚ} {B : ℤ} (h : (B : ℚ) ≤ x * 10 ^ k) :
    (B : ℚ) / 10 ^ k ≤ pyRound x k := by
  unfold pyRound
  rw [div_le_div_iff_of_pos_right (by positivity)]
  exact_mod_cast le_pyRoundInt h

theorem pyRound_div_le {k : ℕ} {x : ℚ} {B : ℤ} (h : x * 10 ^ k ≤ (B : ℚ)) :
    pyRound x k ≤ (B : ℚ) / 10 ^ k := by
  unfold pyRound
  rw [div_le_div_iff_of_pos_right (by positivity)]
  exact_mod_cast pyRoundInt_le h

/-- The failure conditions under which a `translate_text` call leaves both
its input text and the cache unchanged: unsupported target language, or
every cache probe missing while every external generative-text call
raises. -/
def PassThru (api : String → Option String) (cache : Cache)
    (target_language : String) : Prop :=
  (SUPPORTED_LANGUAGES.lookup target_language).isNone = true ∨
  ((∀ k, cache.lookup k = none) ∧ ∀ s, api s = none)

theorem translate_text_passthrough (available : Bool)
    (api : String → Option String) (cache : Cache)
    (text target_language source_language : String)
    (h : source_language = target_language ∨ available = false ∨
      PassThru api cache target_language) :
    translate_text available api cache text target_language source_language =
      (text, cache) := by
  by_cases h1 : source_language = target_language
  · simp [translate_text, h1]
  by_cases h2 : available = false
  · simp [translate_text, h1, h2]
  by_cases h3 : (SUPPORTED_LANGUAGES.lookup target_language).isNone = true
  · simp [translate_text, h1, h2, h3]
  rcases h with h | h | h | ⟨hc, ha⟩
  · exact absurd h h1
  · exact absurd h h2
  · exact absurd h h3
  · simp only [translate_text, if_neg h1, if_neg h2, if_neg h3,
      hc (text, source_language, target_language)]
    cases hsrc : SUPPORTED_LANGUAGES.lookup source_language with
    | none => rfl
    | some srcName => simp [ha]

theorem translateFactors_passthrough (available : Bool)
    (api : String → Option String) (cache : Cache) (target_language : String)
    (h : PassThru api cache target_language) (l : List Factor) :
    translateFactors available api target_language cache l = (l, cache) := by
  induction l with
  | nil => rfl
  | cons f fs ih =>
    have h1 := translate_text_passthrough available api cache f.factor
      target_language "en" (Or.inr (Or.inr h))
    have h2 := translate_text_passthrough available api cache f.impact
      target_language "en" (Or.inr (Or.inr h))
    have h3 := translate_text_passthrough available api cache f.description
      target_language "en" (Or.inr (Or.inr h))
    simp only [translateFactors, h1, h2, h3, ih]

theorem translateRecs_passthrough (available : Bool)
    (api : String → Option String) (cache : Cache) (target_language : String)
    (h : PassThru api cache target_language) (l : List String) :
    translateRecs available api target_language cache l = (l, cache) := by
  induction l with
  | nil => rfl
  | cons r rs ih =>
    have h1 := translate_text_passthrough available api cache r
      target_language "en" (Or.inr (Or.inr h))
    simp only [translateRecs, h1, ih]

theorem translate_risk_prediction_passthrough (available : Bool)
    (api : String → Option String) (cache : Cache)
    (prediction : PredictionResult) (target_language : String)
    (h : available = false ∨ target_language = "en" ∨
      PassThru api cache target_language) :
    translate_risk_prediction available api cache prediction target_language =
      (prediction, cache) := by
  by_cases hg : available = false ∨ target_language = "en"
  · simp [translate_risk_prediction, hg]
  rcases h with h | h | h
  · exact absurd (Or.inl h) hg
  · exact absurd (Or.inr h) hg
  · have h0 := translate_text_passthrough available api cache
      prediction.risk_category target_language "en" (Or.inr (Or.inr h))
    simp only [translate_risk_prediction, if_neg hg, h0,
      translateFactors_passthrough available api cache target_language h,
      translateRecs_passthrough available api cache target_language h]

/-! ## Claim theorems -/

/-- C1: for every class-probability vector (p0, p1, p2) with nonnegative
entries summing to 1, the risk score returned by `predict` equals
`p0*0 + p1*50 + p2*100` rounded to one decimal, and is therefore always in
[0, 100]. -/
theorem predict_risk_score_weighted_rounded (fmt : ℚ → String)
    (p : Fin 3 → ℚ) (c : Fin 3) (d : PatientData)
    (hnn : ∀ i, 0 ≤ p i) (hsum : p 0 + p 1 + p 2 = 1) :
    (predict fmt p c d).risk_score =
      pyRound (p 0 * 0 + p 1 * 50 + p 2 * 100) 1 ∧
    0 ≤ (predict fmt p c d).risk_score ∧
    (predict fmt p c d).risk_score ≤ 100 := by
  have h0 := hnn 0
  have h1 := hnn 1
  have h2 := hnn 2
  refine ⟨rfl, ?_, ?_⟩
  · show 0 ≤ pyRound (p 0 * 0 + p 1 * 50 + p 2 * 100) 1
    have hlo : ((0 : ℤ) : ℚ) ≤ (p 0 * 0 + p 1 * 50 + p 2 * 100) * 10 ^ 1 := by
      push_cast
      nlinarith
    have hb := le_pyRound_div (B := 0) hlo
    simpa using hb
  · show pyRound (p 0 * 0 + p 1 * 50 + p 2 * 100) 1 ≤ 100
    have hhi : (p 0 * 0 + p 1 * 50 + p 2 * 100) * 10 ^ 1 ≤ ((1000 : ℤ) : ℚ) := by
      push_cast
      nlinarith
    have hb := pyRound_div_le (B := 1000) hhi
    have heq : ((1000 : ℤ) : ℚ) / 10 ^ 1 = 100 := by norm_num
    rw [heq] at hb
    exact hb

/-- Witness for C1 at the probability vector (1/2, 1/4, 1/4) and a concrete
record. -/
theorem predict_risk_score_weighted_rounded_witness :
    0 ≤ (predict (fun _ => "") (fun _ => (1:ℚ)/3) 0
      ⟨25, 2, 2, 12, 120, 80, 100, 22, false⟩).risk_score ∧
    (predict (fun _ => "") (fun _ => (1:ℚ)/3) 0
      ⟨25, 2, 2, 12, 120, 80, 100, 22, false⟩).risk_score ≤ 100 :=
  (predict_risk_score_weighted_rounded (fun _ => "") (fun _ => (1:ℚ)/3) 0
    ⟨25, 2, 2, 12, 120, 80, 100, 22, false⟩
    (by intro i; norm_num) (by norm_num)).2

/-- C2: the returned risk category is a function of the predicted class
alone, via the direct index mapping 0 → "Low", 1 → "Medium", 2 → "High";
it does not depend on the probabilities, the raw record (hence not on the
rule-based factor analysis), or the formatting. -/
theorem predict_category_from_argmax_class (fmt fmt' : ℚ → String)
    (p p' : Fin 3 → ℚ) (c : Fin 3) (d d' : PatientData) :
    (predict fmt p c d).risk_category = deriveCategory_spec c ∧
    (predict fmt p c d).risk_category = (predict fmt' p' c d').risk_category := by
  fin_cases c <;> exact ⟨rfl, rfl⟩

/-- C3: the factor analyzer emits exactly one contributing factor per
clinical dimension whose threshold is crossed, with the spec's exact impact
mapping, and no factor for a dimension in normal range: the emitted list
projects, dimension by dimension, to `spec_factor_impacts`, and the returned
(sorted) list is a permutation of the emitted one. -/
theorem analyze_factors_exact_impact_mapping (fmt : ℚ → String)
    (d : PatientData) :
    (factorsRaw fmt d).map factorDim = spec_factor_impacts d ∧
    List.Perm (analyze_factors fmt d) (factorsRaw fmt d) := by
  refine ⟨?_, sortFactors_perm _⟩
  unfold factorsRaw spec_factor_impacts
  simp only [List.map_append, map_ageFactors, map_hemoglobinFactors,
    map_bloodPressureFactors, map_bloodSugarFactors, map_bmiFactors,
    map_historyFactors, map_parityFactors]

/-- C4: the synthetic training label is derived from the rubric sum with
the spec's exact weights and the cutoffs 40 and 70. -/
theorem synthetic_label_from_rubric (d : PatientData) :
    rubric_risk_score d = spec_rubric_sum d ∧ risk_label d = spec_label d :=
  ⟨rfl, rfl⟩

/-- C5: the recommendation list is exactly the concatenation, in this order,
of the urgent-care block (nonempty iff the category is "High"), the anemia
block (iff hemoglobin < 11), the blood-pressure block (iff systolic > 130 or
diastolic > 85), the glucose block (iff blood sugar > 125), at most one BMI
advisory (iff BMI < 18.5 or BMI > 30), at most one age advisory (iff
age < 18 or age > 35), the history block (iff previous complications), and
the two universal advisories always appended as the last two elements. -/
theorem generate_recommendations_block_structure (d : PatientData)
    (cat : String) :
    ∃ urgent anemia bp glucose bmiAdv ageAdv history : List String,
      generate_recommendations d cat =
        urgent ++ anemia ++ bp ++ glucose ++ bmiAdv ++ ageAdv ++ history ++
          ["‚úÖ Regular antenatal check-ups as scheduled",
           "üìû Emergency contact: Seek help if severe headache, vision changes, or bleeding"] ∧
      (urgent ≠ [] ↔ cat = "High") ∧
      (anemia ≠ [] ↔ d.hemoglobin < 11) ∧
      (bp ≠ [] ↔ (d.systolic_bp > 130 ∨ d.diastolic_bp > 85)) ∧
      (glucose ≠ [] ↔ d.blood_sugar > 125) ∧
      bmiAdv.length ≤ 1 ∧ (bmiAdv ≠ [] ↔ (d.bmi < 37/2 ∨ d.bmi > 30)) ∧
      ageAdv.length ≤ 1 ∧ (ageAdv ≠ [] ↔ (d.age < 18 ∨ d.age > 35)) ∧
      (history ≠ [] ↔ d.previous_complications = true) := by
  refine ⟨_, _, _, _, _, _, _, rfl, ?_, ?_, ?_, ?_, ?_, ?_, ?_, ?_, ?_⟩
  · split_ifs with h <;> simp [h]
  · split_ifs with h <;> simp [h]
  · split_ifs with h <;> simp [h]
  · split_ifs with h <;> simp [h]
  · split_ifs <;> simp
  · split_ifs <;> simp_all
  · split_ifs <;> simp
  · split_ifs <;> simp_all
  · split_ifs with h <;> simp [h]

/-- C6: the returned contributing-factor list is sorted with High-impact
factors before Medium-impact before Low-impact (the key order of
`impact_order`), and factors of equal impact keep their generation order
(stability, stated per impact level via `filter`). -/
theorem analyze_factors_sorted_high_medium_low (fmt : ℚ → String)
    (d : PatientData) :
    (analyze_factors fmt d).Pairwise FactorLE ∧
    ∀ v : String,
      (analyze_factors fmt d).filter (fun f => f.impact == v) =
        (factorsRaw fmt d).filter (fun f => f.impact == v) :=
  ⟨sortFactors_pairwise _, fun v => filter_sortFactors v _⟩

/-- C7 (amended): the contributing-factor list depends only on the raw
record — identical across any two classifier states — and the
recommendation list depends only on the raw record and the predicted class,
so it is identical whenever the two classifier states agree on the arg-max
class; probabilities (hence risk scores) are unconstrained. -/
theorem explanation_outputs_classifier_independent (fmt : ℚ → String)
    (p p' : Fin 3 → ℚ) (c c' : Fin 3) (d : PatientData) :
    (predict fmt p c d).contributing_factors =
      (predict fmt p' c' d).contributing_factors ∧
    (c = c' →
      (predict fmt p c d).recommendations =
        (predict fmt p' c' d).recommendations) := by
  refine ⟨rfl, fun h => ?_⟩
  cases h
  rfl

/-- Witness for C7 (amended): two different probability vectors with the
same arg-max class on the same record. -/
theorem explanation_outputs_classifier_independent_witness :
    (predict (fun _ => "") (fun _ => (1:ℚ)/3) 1
      ⟨17, 1, 2, 17/2, 150, 95, 98, 96/5, false⟩).contributing_factors =
      (predict (fun _ => "") (fun i => if i = 1 then (3:ℚ)/5 else 1/5) 1
        ⟨17, 1, 2, 17/2, 150, 95, 98, 96/5, false⟩).contributing_factors ∧
    (predict (fun _ => "") (fun _ => (1:ℚ)/3) 1
      ⟨17, 1, 2, 17/2, 150, 95, 98, 96/5, false⟩).recommendations =
      (predict (fun _ => "") (fun i => if i = 1 then (3:ℚ)/5 else 1/5) 1
        ⟨17, 1, 2, 17/2, 150, 95, 98, 96/5, false⟩).recommendations :=
  ⟨(explanation_outputs_classifier_independent (fun _ => "")
      (fun _ => (1:ℚ)/3) (fun i => if i = 1 then (3:ℚ)/5 else 1/5) 1 1
      ⟨17, 1, 2, 17/2, 150, 95, 98, 96/5, false⟩).1,
   (explanation_outputs_classifier_independent (fun _ => "")
      (fun _ => (1:ℚ)/3) (fun i => if i = 1 then (3:ℚ)/5 else 1/5) 1 1
      ⟨17, 1, 2, 17/2, 150, 95, 98, 96/5, false⟩).2 rfl⟩

/-- Counterexample to C7 as stated: the same record fed to two classifier
states that disagree on the predicted class (here even with identical,
uniform probabilities — a tie broken differently) yields different
recommendation lists, so the recommendation output does depend on
classifier state. -/
theorem recommendations_depend_on_predicted_class :
    (predict (fun _ => "") (fun _ => (1:ℚ)/3) 0
      ⟨25, 2, 2, 12, 120, 80, 100, 22, false⟩).recommendations ≠
      (predict (fun _ => "") (fun _ => (1:ℚ)/3) 2
        ⟨25, 2, 2, 12, 120, 80, 100, 22, false⟩).recommendations := by
  show generate_recommendations ⟨25, 2, 2, 12, 120, 80, 100, 22, false⟩ "Low" ≠
    generate_recommendations ⟨25, 2, 2, 12, 120, 80, 100, 22, false⟩ "High"
  intro h
  have hlen := congrArg List.length h
  have hne : ("Low" : String) ≠ "High" := by decide
  norm_num [generate_recommendations, hne] at hlen

/-- C8: the normalizer fit never divides by zero — a zero-variance feature
gets scale 1, and every scale is nonzero (so `scalerTransform` never divides
by 0); fitting is total by construction. -/
theorem scaler_fit_zero_variance_guard {n : ℕ} (sqrt : ℚ → ℚ)
    (hsqrt : ∀ q : ℚ, 0 < q → 0 < sqrt q)
    (cohort : List (Fin n → ℚ)) (j : Fin n) :
    (featureVariance cohort j = 0 → (scalerFit sqrt cohort).scale j = 1) ∧
    (scalerFit sqrt cohort).scale j ≠ 0 := by
  constructor
  · intro h
    simp [scalerFit, h]
  · unfold scalerFit
    dsimp only
    split_ifs with h
    · norm_num
    · have hvar : 0 ≤ featureVariance cohort j := by
        unfold featureVariance
        apply div_nonneg
        · apply List.sum_nonneg
          intro x hx
          simp only [List.mem_map] at hx
          obtain ⟨y, _, rfl⟩ := hx
          positivity
        · positivity
      exact ne_of_gt (hsqrt _ (lt_of_le_of_ne hvar (Ne.symm h)))

/-- Witness for C8: a two-sample cohort with one constant feature. -/
theorem scaler_fit_zero_variance_guard_witness :
    featureVariance [fun _ => (2:ℚ), fun _ => (2:ℚ)] (0 : Fin 1) = 0 ∧
    (scalerFit (n := 1) id [fun _ => (2:ℚ), fun _ => (2:ℚ)]).scale 0 = 1 ∧
    (scalerFit (n := 1) id [fun _ => (2:ℚ), fun _ => (2:ℚ)]).scale 0 ≠ 0 := by
  have h := scaler_fit_zero_variance_guard (n := 1) id (fun q hq => hq)
    [fun _ => (2:ℚ), fun _ => (2:ℚ)] 0
  have hv : featureVariance [fun _ => (2:ℚ), fun _ => (2:ℚ)] (0 : Fin 1) = 0 := by
    norm_num [featureVariance, featureMean]
  exact ⟨hv, h.1 hv, h.2⟩

/-- C9: each failure condition — same source and target language,
unavailable service (no API key), unsupported target language, or every
external generative-text call raising (with no cached translation) — makes
`translate_text` return its input text unchanged and
`translate_risk_prediction` return its input prediction unchanged; both
functions are total, so no failure reaches the caller. -/
theorem translation_failures_return_input_unchanged (available : Bool)
    (api : String → Option String) (cache : Cache)
    (text target_language source_language : String)
    (prediction : PredictionResult) :
    (source_language = target_language →
      (translate_text available api cache text target_language
        source_language).1 = text) ∧
    (available = false →
      (translate_text available api cache text target_language
        source_language).1 = text ∧
      (translate_risk_prediction available api cache prediction
        target_language).1 = prediction) ∧
    ((SUPPORTED_LANGUAGES.lookup target_language).isNone = true →
      (translate_text available api cache text target_language
        source_language).1 = text ∧
      (translate_risk_prediction available api cache prediction
        target_language).1 = prediction) ∧
    (target_language = "en" →
      (translate_risk_prediction available api cache prediction
        target_language).1 = prediction) ∧
    ((∀ k, cache.lookup k = none) → (∀ s, api s = none) →
      (translate_text available api cache text target_language
        source_language).1 = text ∧
      (translate_risk_prediction available api cache prediction
        target_language).1 = prediction) := by
  refine ⟨fun h => ?_, fun h => ⟨?_, ?_⟩, fun h => ⟨?_, ?_⟩, fun h => ?_,
    fun hc ha => ⟨?_, ?_⟩⟩
  · rw [translate_text_passthrough _ _ _ _ _ _ (Or.inl h)]
  · rw [translate_text_passthrough _ _ _ _ _ _ (Or.inr (Or.inl h))]
  · rw [translate_risk_prediction_passthrough _ _ _ _ _ (Or.inl h)]
  · rw [translate_text_passthrough _ _ _ _ _ _ (Or.inr (Or.inr (Or.inl h)))]
  · rw [translate_risk_prediction_passthrough _ _ _ _ _
      (Or.inr (Or.inr (Or.inl h)))]
  · rw [translate_risk_prediction_passthrough _ _ _ _ _ (Or.inr (Or.inl h))]
  · rw [translate_text_passthrough _ _ _ _ _ _
      (Or.inr (Or.inr (Or.inr ⟨hc, ha⟩)))]
  · rw [translate_risk_prediction_passthrough _ _ _ _ _
      (Or.inr (Or.inr (Or.inr ⟨hc, ha⟩)))]

/-- Witness for C9: an unavailable service (no API key, failing external
call, empty cache) passes a text and a prediction through unchanged. -/
theorem translation_failures_return_input_unchanged_witness :
    (translate_text false (fun _ => none) [] "Low" "hi" "en").1 = "Low" ∧
    (translate_risk_prediction false (fun _ => none) []
      ⟨50, "Low", 1/2, [], []⟩ "hi").1 = ⟨50, "Low", 1/2, [], []⟩ :=
  ⟨((translation_failures_return_input_unchanged false (fun _ => none) []
      "Low" "hi" "en" ⟨50, "Low", 1/2, [], []⟩).2.1 rfl).1,
   ((translation_failures_return_input_unchanged false (fun _ => none) []
      "Low" "hi" "en" ⟨50, "Low", 1/2, [], []⟩).2.1 rfl).2⟩

/-- C10 (amended): the probability (confidence) field equals the arg-max
class's probability rounded to three decimals; the unrounded arg-max
probability is at least 1/3, so the field is at least 0.333 (rounding can
dip just below 1/3). -/
theorem predict_probability_rounded_argmax (fmt : ℚ → String)
    (p : Fin 3 → ℚ) (c : Fin 3) (d : PatientData)
    (hsum : p 0 + p 1 + p 2 = 1) (hmax : ∀ i, p i ≤ p c) :
    (predict fmt p c d).probability = pyRound (p c) 3 ∧
    1/3 ≤ p c ∧
    (333 : ℚ)/1000 ≤ (predict fmt p c d).probability := by
  have hm0 := hmax 0
  have hm1 := hmax 1
  have hm2 := hmax 2
  have h3 : (1 : ℚ)/3 ≤ p c := by linarith
  refine ⟨rfl, h3, ?_⟩
  show (333 : ℚ)/1000 ≤ pyRound (p c) 3
  have hb : ((333 : ℤ) : ℚ) ≤ p c * 10 ^ 3 := by
    push_cast
    nlinarith
  have := le_pyRound_div (B := 333) hb
  have heq : ((333 : ℤ) : ℚ) / 10 ^ 3 = 333/1000 := by norm_num
  rw [heq] at this
  exact this

/-- Witness for C10 (amended) at the uniform probability vector. -/
theorem predict_probability_rounded_argmax_witness :
    (predict (fun _ => "") (fun _ => (1:ℚ)/3) 0
      ⟨25, 2, 2, 12, 120, 80, 100, 22, false⟩).probability =
      pyRound ((1:ℚ)/3) 3 ∧
    (333 : ℚ)/1000 ≤ (predict (fun _ => "") (fun _ => (1:ℚ)/3) 0
      ⟨25, 2, 2, 12, 120, 80, 100, 22, false⟩).probability :=
  ⟨(predict_probability_rounded_argmax (fun _ => "") (fun _ => (1:ℚ)/3) 0
      ⟨25, 2, 2, 12, 120, 80, 100, 22, false⟩ (by norm_num)
      (by intro i; norm_num)).1,
   (predict_probability_rounded_argmax (fun _ => "") (fun _ => (1:ℚ)/3) 0
      ⟨25, 2, 2, 12, 120, 80, 100, 22, false⟩ (by norm_num)
      (by intro i; norm_num)).2.2⟩

/-- Counterexample to C10 as stated: at the uniform probability vector the
returned confidence is 0.333, which is strictly below the arg-max
probability 1/3 — so the field neither equals the maximum of the three
class probabilities nor is it always at least 1/3. -/
theorem predict_probability_rounding_dips_below_third :
    (predict (fun _ => "") (fun _ => (1:ℚ)/3) 0
      ⟨25, 2, 2, 12, 120, 80, 100, 22, false⟩).probability <
      max (max ((1:ℚ)/3) ((1:ℚ)/3)) ((1:ℚ)/3) := by
  show pyRound ((1:ℚ)/3) 3 < max (max ((1:ℚ)/3) ((1:ℚ)/3)) ((1:ℚ)/3)
  have hfl : ⌊(1:ℚ)/3 * 10 ^ 3⌋ = 333 := by
    rw [Int.floor_eq_iff]
    norm_num
  rw [pyRound, pyRoundInt, hfl]
  norm_num

end MaternalHealth
